import Mathlib

/-!
Verification of the rust-booter server (src/server.js) against its
natural-language specification.

The JavaScript source is shallowly embedded: JS scalar values become the
inductive type JSValue (JSON-decoded data carries no NaN, and the values
compared with === in the embedded fragments are scalars, so propositional
equality on JSValue coincides with JS strict equality there); JS objects
used as string-keyed maps become association lists with first-match lookup
and in-place replacement on assignment; `setTimeout` scheduling becomes an
explicit list of scheduled delays; the global connection flag/handle pair
becomes an explicit ClientState threaded through the functions.
-/

/-- A JavaScript scalar value as it flows through server.js: entity payload
values, pairing fields and config fields. vUndef models `undefined`
(an absent field), vNull models `null`, vNaN the NaN number. -/
inductive JSValue where
  | vNull
  | vUndef
  | vNaN
  | vBool (b : Bool)
  | vNum (n : Int)
  | vStr (s : String)
deriving DecidableEq, Repr

/-- JavaScript truthiness of a scalar: `undefined`, `null`, `NaN`, `false`,
`0` and the empty string are falsy, everything else is truthy. -/
def JSValue.truthy : JSValue → Bool
  | .vNull => false
  | .vUndef => false
  | .vNaN => false
  | .vBool b => b
  | .vNum n => n != 0
  | .vStr s => s ≠ ""

/-- JavaScript String(x) conversion, used for template literals and for
object keys (obj[x] keys by String(x)). -/
def JSValue.jsToString : JSValue → String
  | .vNull => "null"
  | .vUndef => "undefined"
  | .vNaN => "NaN"
  | .vBool b => if b then "true" else "false"
  | .vNum n => toString n
  | .vStr s => s

/-- JavaScript `a || b`: the first operand when truthy, otherwise the second. -/
def jsOr (a b : JSValue) : JSValue :=
  if a.truthy then a else b

/-- JavaScript parseInt on a scalar, for the decimal inputs that occur here:
a string parsing as a decimal integer yields that number, a number is kept,
anything else yields NaN. -/
def parseIntJS : JSValue → JSValue
  | .vStr s =>
      match s.toInt? with
      | some n => .vNum n
      | none => .vNaN
  | .vNum n => .vNum n
  | _ => .vNaN

/-- One detected entity record as stored in config.detectedEntities
(server.js lines 592-599 and 890-897). -/
structure Entity where
  id : JSValue
  name : JSValue
  etype : JSValue
  lastValue : JSValue
  lastChanged : String
  paired : Bool
deriving DecidableEq, Repr

/-- One smart alarm rule as stored in config.smartAlarms.
triggerOnActivation is Option Bool because the field may be absent
(server.js line 917 defaults it to true). -/
structure SmartAlarm where
  id : String
  name : String
  enabled : Bool
  entityId : String
  triggerOnActivation : Option Bool
  wakePC : Bool
  sendDiscord : Bool
  discordMessage : String
  messageFilter : String
deriving DecidableEq, Repr

/-- The slice of the persisted configuration document that the embedded
functions read and write (server.js defaultConfig, lines 325-341).
detectedEntities is the JS object keyed by String(entityId). -/
structure Config where
  rustPlusServerIP : JSValue
  rustPlusServerPort : JSValue
  rustPlusPlayerId : JSValue
  rustPlusPlayerToken : JSValue
  rustPlusServerName : JSValue
  smartAlarms : List SmartAlarm
  detectedEntities : List (String × Entity)
deriving DecidableEq, Repr

/-- JavaScript object assignment obj[k] = v on a string-keyed map: replace
the value at the first occurrence of the key, else append the new key. -/
def setKey (m : List (String × Entity)) (k : String) (v : Entity) :
    List (String × Entity) :=
  match m with
  | [] => [(k, v)]
  | (k', v') :: rest =>
      if k' = k then (k, v) :: rest else (k', v') :: setKey rest k v

theorem lookup_setKey_self (m : List (String × Entity)) (k : String) (v : Entity) :
    List.lookup k (setKey m k v) = some v := by
  induction m with
  | nil => simp [setKey, List.lookup]
  | cons p rest ih =>
      obtain ⟨k', v'⟩ := p
      by_cases h : k' = k
      · simp [setKey, h, List.lookup]
      · have hk : (k == k') = false := by
          simp only [beq_eq_false_iff_ne, ne_eq]
          exact fun e => h e.symm
        simp [setKey, h, List.lookup, hk, ih]

/-- Value normalization for entityChanged broadcasts (server.js lines
869-876): rawValue === null or === undefined becomes false, any other
scalar is used as-is. -/
def normalizeEntityValue : JSValue → JSValue
  | .vNull => .vBool false
  | .vUndef => .vBool false
  | v => v

/-- The entityChanged branch of processSmartAlarmMessage (server.js lines
863-930), on the freshly loaded config: normalize the payload value,
upsert the entity record preserving an existing name/type/paired flag,
and collect the smart-alarm rules whose trigger condition fires.
Returns the saved config and the list of triggered rules. -/
def processSmartAlarmEntityChanged (freshConfig : Config) (entityId : Nat)
    (rawValue : JSValue) (nowIso : String) : Config × List SmartAlarm :=
  let value := normalizeEntityValue rawValue
  let key := toString entityId
  let existingEntity := List.lookup key freshConfig.detectedEntities
  let updatedEntity : Entity :=
    { id := JSValue.vNum entityId
      lastValue := value
      lastChanged := nowIso
      name :=
        match existingEntity with
        | some e => e.name
        | none => JSValue.vStr ("Entity " ++ key)
      etype :=
        match existingEntity with
        | some e => e.etype
        | none => JSValue.vStr "unknown"
      paired :=
        match existingEntity with
        | some e => e.paired
        | none => false }
  let savedConfig :=
    { freshConfig with
        detectedEntities := setKey freshConfig.detectedEntities key updatedEntity }
  let triggered :=
    freshConfig.smartAlarms.filter fun alarm =>
      alarm.enabled && (alarm.entityId == key) &&
        (if alarm.triggerOnActivation.getD true then value.truthy else !value.truthy)
  (savedConfig, triggered)

/-- A decoded body of a Rust+ push notification (the JSON-parsed value of
the appData entry with key body), with vUndef standing for an absent field. -/
structure PairingInfo where
  ptype : JSValue
  ip : JSValue
  port : JSValue
  playerId : JSValue
  playerToken : JSValue
  pname : JSValue
  entityId : JSValue
  entityName : JSValue
  entityType : JSValue
deriving DecidableEq, Repr

/-- Observable side effects issued by handleRustPlusPairing besides the
config write: an immediate connect (server branch), a disconnect of the
current client, a reconnect scheduled after the given delay in ms, or a
getEntityInfo subscription for an entity key. The list order is the order
in which the source issues them. -/
inductive PairingAction where
  | connectClient
  | disconnectClient
  | scheduleReconnect (delayMs : Nat)
  | subscribeEntity (key : String)
deriving DecidableEq, Repr

def PairingAction.isDisconnect : PairingAction → Bool
  | .disconnectClient => true
  | _ => false

def PairingAction.isScheduledReconnect : PairingAction → Bool
  | .scheduleReconnect _ => true
  | _ => false

/-- The entity branch of handleRustPlusPairing (server.js lines 559-627).
client is the rustPlusClient global: none for null, some b for a client
whose isConnected() returns b. The ip-change check at line 573 mutates the
same config object that the second ip-change check at line 605 re-reads,
which the embedding reproduces by threading cfg1/cfg2. -/
def handleEntityPairing (cfg : Config) (info : PairingInfo)
    (nowIso : String) (client : Option Bool) : Config × List PairingAction :=
  let cfg1 :=
    if info.ip.truthy = true ∧ info.ip ≠ cfg.rustPlusServerIP then
      { cfg with
          rustPlusServerIP := info.ip
          rustPlusServerPort := jsOr (parseIntJS info.port) cfg.rustPlusServerPort
          rustPlusPlayerId := jsOr info.playerId cfg.rustPlusPlayerId
          rustPlusPlayerToken := jsOr info.playerToken cfg.rustPlusPlayerToken
          rustPlusServerName := jsOr info.pname cfg.rustPlusServerName }
    else cfg
  let key := info.entityId.jsToString
  match List.lookup key cfg1.detectedEntities with
  | some existing =>
      ({ cfg1 with
          detectedEntities :=
            setKey cfg1.detectedEntities key
              { existing with lastChanged := nowIso, paired := true } },
       [])
  | none =>
      let newEntity : Entity :=
        { id := info.entityId
          name := jsOr info.entityName (JSValue.vStr ("Smart Device " ++ key))
          etype := jsOr info.entityType (JSValue.vStr "unknown")
          lastValue := JSValue.vBool false
          lastChanged := nowIso
          paired := true }
      let cfg2 :=
        { cfg1 with detectedEntities := setKey cfg1.detectedEntities key newEntity }
      let reconnectActions :=
        if info.ip.truthy = true ∧ info.ip ≠ cfg2.rustPlusServerIP then
          (match client with
           | some _ => [PairingAction.disconnectClient]
           | none => []) ++ [PairingAction.scheduleReconnect 2000]
        else []
      let subscribeActions :=
        if client = some true then [PairingAction.subscribeEntity key] else []
      (cfg2, reconnectActions ++ subscribeActions)

/-- handleRustPlusPairing (server.js lines 522-643) on an already decoded
body: dispatch on the type discriminator; a body with a truthy entityId is
treated as an entity pairing even without type entity; alarm and unknown
types leave the config untouched. -/
def handleRustPlusPairing (cfg : Config) (info : PairingInfo)
    (nowIso : String) (client : Option Bool) : Config × List PairingAction :=
  if info.ptype = JSValue.vStr "server" then
    ({ cfg with
        rustPlusServerIP := info.ip
        rustPlusServerPort := parseIntJS info.port
        rustPlusPlayerId := info.playerId
        rustPlusPlayerToken := info.playerToken
        rustPlusServerName := info.pname },
     [PairingAction.connectClient])
  else if info.ptype = JSValue.vStr "entity" ∨ info.entityId.truthy = true then
    handleEntityPairing cfg info nowIso client
  else if info.ptype = JSValue.vStr "alarm" then
    (cfg, [])
  else
    (cfg, [])

/-- The global connection state of server.js: the isConnecting flag (line
322), the rustPlusClient global (line 420; none for null, some b for a
client whose isConnected() returns b), and a counter of RustPlus clients
constructed so far (each new RustPlus(...) at line 682 opens a socket). -/
structure ClientState where
  isConnecting : Bool
  rustPlusClient : Option Bool
  clientsCreated : Nat
deriving DecidableEq, Repr

/-- The result of a call to connectToRustPlus as seen by the caller. -/
inductive ConnectOutcome where
  | nullMissingCreds
  | nullAlreadyConnecting
  | existingConnected
  | startedAttempt
deriving DecidableEq, Repr

/-- Truthiness of the credential triple checked throughout server.js
(lines 647, 730, 747, 755, 794, 833):
config.rustPlusServerIP and config.rustPlusPlayerId and
config.rustPlusPlayerToken. -/
def hasRustPlusCredentials (c : Config) : Bool :=
  c.rustPlusServerIP.truthy && c.rustPlusPlayerId.truthy &&
    c.rustPlusPlayerToken.truthy

/-- The synchronous guard prefix of connectToRustPlus (server.js lines
646-682): bail out returning null when credentials are missing or a
connection attempt is already in flight, return the existing client when
it is already connected, otherwise set the isConnecting flag and construct
a fresh RustPlus client (one new socket). -/
def connectToRustPlus (cfg : Config) (st : ClientState) :
    ConnectOutcome × ClientState :=
  if hasRustPlusCredentials cfg = false then
    (.nullMissingCreds, st)
  else if st.isConnecting then
    (.nullAlreadyConnecting, st)
  else if st.rustPlusClient = some true then
    (.existingConnected, st)
  else
    (.startedAttempt,
     { isConnecting := true
       rustPlusClient := some false
       clientsCreated := st.clientsCreated + 1 })

/-- Reconnect delays scheduled by the error handler (server.js lines
737-761): 30000 ms for ETIMEDOUT or ECONNREFUSED, 10000 ms otherwise. -/
def errorReconnectDelays (errCode : String) : List Nat :=
  if errCode = "ETIMEDOUT" ∨ errCode = "ECONNREFUSED" then [30000] else [10000]

/-- The error event handler (server.js lines 737-761): clear the
isConnecting flag and schedule the reconnect timers classified by the
error code. -/
def onRustPlusError (errCode : String) (st : ClientState) :
    ClientState × List Nat :=
  ({ st with isConnecting := false }, errorReconnectDelays errCode)

/-- The failure events the reconnect supervisor reacts to: the
disconnected event (line 725), an error event with its code (line 737),
and a rejected connect() caught at line 789. -/
inductive SupervisorEvent where
  | disconnected
  | errorEvent (errCode : String)
  | connectFailed

/-- Delays of the reconnect timers scheduled for one supervisor event
(server.js lines 729-734, 743-760, 793-798). -/
def scheduledReconnectDelays : SupervisorEvent → List Nat
  | .disconnected => [5000]
  | .errorEvent errCode => errorReconnectDelays errCode
  | .connectFailed => [15000]

/-- Body of every scheduled reconnect timer (lines 730, 747, 755, 794):
connectToRustPlus is invoked exactly when the credential triple of the
supervised config is truthy; nothing else is consulted, in particular no
attempt counter exists. -/
def reconnectTimerFires (cfg : Config) : Bool :=
  hasRustPlusCredentials cfg

/-- Number of reconnect invocations performed after a sequence of failure
events: each event schedules its timers, and each timer body reconnects
exactly when the credentials are present. -/
def reconnectAttempts (cfg : Config) (events : List SupervisorEvent) : Nat :=
  events.foldl
    (fun n e =>
      n + (if reconnectTimerFires cfg then (scheduledReconnectDelays e).length else 0))
    0

/-- A JSON value as stored in the persisted config.json document: a
scalar, an array, or a string-keyed object. -/
inductive JsonVal where
  | scalar (v : JSValue)
  | arr (elems : List JsonVal)
  | obj (fields : List (String × JsonVal))

/-- A JavaScript object at the top level of the document: an ordered list
of key-value fields with first-match lookup. -/
abbrev JSObject := List (String × JsonVal)

/-- JavaScript object spread followed by lookup semantics:
the merged object keeps the base keys in order with values overridden by
the overlay where the key is shared, followed by the overlay keys missing
from the base. -/
def spreadMerge (base overlay : JSObject) : JSObject :=
  base.map (fun p => (p.1, (List.lookup p.1 overlay).getD p.2)) ++
    overlay.filter (fun p => (List.lookup p.1 base).isNone)

/-- The defaultConfig document of server.js (lines 325-341). -/
def defaultConfigDoc : JSObject :=
  [("gamingPCIP", .scalar (.vStr "")),
   ("gamingPCMAC", .scalar (.vStr "")),
   ("rustServerIP", .scalar (.vStr "")),
   ("rustServerPort", .scalar (.vNum 28015)),
   ("discordWebhookURL", .scalar (.vStr "")),
   ("rustPlusEnabled", .scalar (.vBool false)),
   ("rustPlusServerIP", .scalar (.vStr "")),
   ("rustPlusServerPort", .scalar (.vNum 28082)),
   ("rustPlusPlayerId", .scalar (.vStr "")),
   ("rustPlusPlayerToken", .scalar (.vStr "")),
   ("rustPlusTokenExpiry", .scalar (.vStr "")),
   ("rustPlusServerName", .scalar (.vStr "")),
   ("fcmCredentials", .scalar .vNull),
   ("smartAlarms", .arr []),
   ("detectedEntities", .obj [])]

/-- State of the persisted config.json file as the fs calls in loadConfig
observe it: absent, present but unreadable (readFileSync throws), present
but not valid JSON (JSON.parse throws), or readable with the given parsed
document. -/
inductive StoreState where
  | missing
  | unreadable
  | invalidJSON
  | validDoc (doc : JSObject)

/-- loadConfig (server.js lines 344-359): a readable parsable file is
spread over defaultConfig; a missing file is (re)created and the default
returned; a read or parse error is caught and the default returned. -/
def loadConfig : StoreState → JSObject
  | .missing => defaultConfigDoc
  | .unreadable => defaultConfigDoc
  | .invalidJSON => defaultConfigDoc
  | .validDoc doc => spreadMerge defaultConfigDoc doc

/-- The POST /api/config handler (server.js lines 183-193, registered
again identically at lines 1144-1154): the request body is spread over the
freshly loaded current config and the result is saved. -/
def postApiConfig (store : StoreState) (reqBody : JSObject) : JSObject :=
  spreadMerge (loadConfig store) reqBody

theorem lookup_append_pairs (k : String) (l1 l2 : JSObject) :
    List.lookup k (l1 ++ l2)
      = match List.lookup k l1 with
        | some v => some v
        | none => List.lookup k l2 := by
  induction l1 with
  | nil => simp [List.lookup]
  | cons p rest ih =>
      obtain ⟨k', v'⟩ := p
      cases hk : (k == k') <;> simp [List.lookup, hk, ih]

theorem lookup_map_override (overlay : JSObject) (k : String) (base : JSObject) :
    List.lookup k (base.map fun p => (p.1, (List.lookup p.1 overlay).getD p.2))
      = (List.lookup k base).map fun v => (List.lookup k overlay).getD v := by
  induction base with
  | nil => simp [List.lookup]
  | cons p rest ih =>
      obtain ⟨k', v'⟩ := p
      by_cases h : k = k'
      · subst h
        simp [List.lookup]
      · have hk : (k == k') = false := by
          simp only [beq_eq_false_iff_ne, ne_eq]
          exact h
        simp [List.lookup, hk, ih]

theorem lookup_filter_of_base_free (base : JSObject) (k : String)
    (hk : (List.lookup k base).isNone = true) (overlay : JSObject) :
    List.lookup k (overlay.filter fun p => (List.lookup p.1 base).isNone)
      = List.lookup k overlay := by
  induction overlay with
  | nil => rfl
  | cons p rest ih =>
      obtain ⟨k', v'⟩ := p
      by_cases h : k = k'
      · subst h
        simp [List.filter_cons, hk, List.lookup]
      · have hbk : (k == k') = false := by
          simp only [beq_eq_false_iff_ne, ne_eq]
          exact h
        cases hcond : (List.lookup k' base).isNone <;>
          simp [List.filter_cons, hcond, List.lookup, hbk, ih]

theorem lookup_filter_none (k : String) (p : String × JsonVal → Bool)
    (overlay : JSObject) (h : List.lookup k overlay = none) :
    List.lookup k (overlay.filter p) = none := by
  induction overlay with
  | nil => rfl
  | cons q rest ih =>
      obtain ⟨k', v'⟩ := q
      cases hk : (k == k') with
      | true =>
          rw [List.lookup] at h
          simp [hk] at h
      | false =>
          rw [List.lookup] at h
          simp only [hk] at h
          cases hcond : p (k', v') <;>
            simp [List.filter_cons, hcond, List.lookup, hk, ih h]

theorem lookup_spreadMerge_absent (base overlay : JSObject) (k : String)
    (h : List.lookup k overlay = none) :
    List.lookup k (spreadMerge base overlay) = List.lookup k base := by
  unfold spreadMerge
  rw [lookup_append_pairs, lookup_map_override]
  cases hb : List.lookup k base with
  | some v => simp [h]
  | none =>
      simp only [Option.map_none']
      exact lookup_filter_none k _ overlay h

theorem lookup_spreadMerge_present (base overlay : JSObject) (k : String)
    (v : JsonVal) (h : List.lookup k overlay = some v) :
    List.lookup k (spreadMerge base overlay) = some v := by
  unfold spreadMerge
  rw [lookup_append_pairs, lookup_map_override]
  cases hb : List.lookup k base with
  | some w => simp [h]
  | none =>
      simp only [Option.map_none']
      rw [lookup_filter_of_base_free base k (by simp [hb]) overlay]
      exact h

theorem smartAlarm_pred_iff (eid : Nat) (raw : JSValue) (a : SmartAlarm) :
    (a.enabled && (a.entityId == toString eid) &&
        (if a.triggerOnActivation.getD true then (normalizeEntityValue raw).truthy
         else !(normalizeEntityValue raw).truthy)) = true
      ↔ a.enabled = true ∧ a.entityId = toString eid ∧
          (if a.triggerOnActivation.getD true = true
           then (normalizeEntityValue raw).truthy = true
           else (normalizeEntityValue raw).truthy = false) := by
  cases h : a.triggerOnActivation.getD true <;>
    simp [h, Bool.and_eq_true, beq_iff_eq, and_assoc]

/-- C1: in the entityChanged branch of processSmartAlarmMessage, a
configured smart-alarm rule triggers exactly when it is enabled, its
entityId equals the string form of the event's entity id, and the
normalized value satisfies the trigger condition, where
triggerOnActivation defaults to true when unset; in particular a rule with
enabled = false never triggers. -/
theorem smartAlarm_trigger_iff (cfg : Config) (eid : Nat) (raw : JSValue)
    (nowIso : String) (alarm : SmartAlarm) :
    alarm ∈ (processSmartAlarmEntityChanged cfg eid raw nowIso).2 ↔
      alarm ∈ cfg.smartAlarms ∧ alarm.enabled = true ∧
        alarm.entityId = toString eid ∧
        (if alarm.triggerOnActivation.getD true = true
         then (normalizeEntityValue raw).truthy = true
         else (normalizeEntityValue raw).truthy = false) := by
  unfold processSmartAlarmEntityChanged
  rw [List.mem_filter, smartAlarm_pred_iff eid raw alarm]

/-- C4: after the entityChanged branch runs, the stored lastValue of the
event's entity is false when the raw payload value was null or undefined,
and is the raw scalar unchanged otherwise. -/
theorem entity_lastValue_normalization (cfg : Config) (eid : Nat)
    (raw : JSValue) (nowIso : String) :
    ∃ e : Entity,
      List.lookup (toString eid)
          (processSmartAlarmEntityChanged cfg eid raw nowIso).1.detectedEntities
        = some e ∧
      e.lastValue =
        (if raw = JSValue.vNull ∨ raw = JSValue.vUndef then JSValue.vBool false
         else raw) := by
  unfold processSmartAlarmEntityChanged
  refine ⟨_, lookup_setKey_self _ _ _, ?_⟩
  cases raw <;> simp [normalizeEntityValue]

/-- C5: redelivering an entity pairing notification for an already paired
entity id leaves the stored record identical except for a refreshed
lastChanged timestamp (in particular the display name is untouched), and a
state-change event never overwrites the stored name of an existing
entity. -/
theorem displayName_never_clobbered :
    (∀ (cfg : Config) (info : PairingInfo) (nowIso : String)
        (client : Option Bool) (e : Entity),
      info.ptype = JSValue.vStr "entity" →
      List.lookup info.entityId.jsToString cfg.detectedEntities = some e →
      e.paired = true →
      List.lookup info.entityId.jsToString
          (handleRustPlusPairing cfg info nowIso client).1.detectedEntities
        = some { e with lastChanged := nowIso }) ∧
    (∀ (cfg : Config) (eid : Nat) (raw : JSValue) (nowIso : String) (e : Entity),
      List.lookup (toString eid) cfg.detectedEntities = some e →
      ∃ e2 : Entity,
        List.lookup (toString eid)
            (processSmartAlarmEntityChanged cfg eid raw nowIso).1.detectedEntities
          = some e2 ∧ e2.name = e.name) := by
  constructor
  · intro cfg info nowIso client e ht hfound hpaired
    obtain ⟨eid', ename', etype', elast', echanged', epaired'⟩ := e
    simp only at hpaired
    subst hpaired
    simp only [handleRustPlusPairing, ht]
    rw [if_pos (Or.inl trivial)]
    simp only [handleEntityPairing]
    by_cases hip : info.ip.truthy = true ∧ info.ip ≠ cfg.rustPlusServerIP
    · simp only [if_pos hip, hfound]
      rw [if_neg (by decide)]
      exact lookup_setKey_self _ _ _
    · simp only [if_neg hip, hfound]
      rw [if_neg (by decide)]
      exact lookup_setKey_self _ _ _
  · intro cfg eid raw nowIso e hfound
    unfold processSmartAlarmEntityChanged
    refine ⟨_, lookup_setKey_self _ _ _, ?_⟩
    simp only [hfound]

/-- A stored config paired with server 1.1.1.1, used as the concrete state
for the pairing-notification evaluations below. -/
def pairingConfigBefore : Config :=
  { rustPlusServerIP := .vStr "1.1.1.1"
    rustPlusServerPort := .vNum 28082
    rustPlusPlayerId := .vStr "76561198000000001"
    rustPlusPlayerToken := .vStr "111111"
    rustPlusServerName := .vStr "Old Server"
    smartAlarms := []
    detectedEntities := [] }

/-- An entity pairing notification body whose server address 2.2.2.2
differs from the stored 1.1.1.1. -/
def pairingInfoNewServer : PairingInfo :=
  { ptype := .vStr "entity"
    ip := .vStr "2.2.2.2"
    port := .vStr "28083"
    playerId := .vStr "76561198000000001"
    playerToken := .vStr "222222"
    pname := .vStr "New Server"
    entityId := .vStr "100"
    entityName := .vStr "Door Sensor"
    entityType := .vStr "1"
    : PairingInfo }

/-- C2: on an entity pairing whose server address differs from the stored
one, the resolver does update the stored credentials, but it never issues
the disconnect and never schedules the 2-second reconnect: the ip-change
test at server.js line 605 re-reads the config object that line 575
already mutated, so it is always false. Evaluated at a concrete
notification against a connected client. -/
theorem entityPairing_ip_change_never_reconnects :
    (pairingInfoNewServer.ip == pairingConfigBefore.rustPlusServerIP) = false ∧
    (handleRustPlusPairing pairingConfigBefore pairingInfoNewServer
        "2026-01-02T00:00:00Z" (some true)).1.rustPlusServerIP
      = JSValue.vStr "2.2.2.2" ∧
    ((handleRustPlusPairing pairingConfigBefore pairingInfoNewServer
        "2026-01-02T00:00:00Z" (some true)).2.any PairingAction.isDisconnect)
      = false ∧
    ((handleRustPlusPairing pairingConfigBefore pairingInfoNewServer
        "2026-01-02T00:00:00Z" (some true)).2.any PairingAction.isScheduledReconnect)
      = false := by
  decide

/-- A decoded body of type alarm that also carries an entityId field. -/
def alarmInfoWithEntityId : PairingInfo :=
  { ptype := .vStr "alarm"
    ip := .vUndef
    port := .vUndef
    playerId := .vUndef
    playerToken := .vUndef
    pname := .vUndef
    entityId := .vStr "99"
    entityName := .vUndef
    entityType := .vUndef
    : PairingInfo }

/-- C8 counterexample: a body of type alarm that carries an entityId is
captured by the entity branch (its guard tests type === entity OR a truthy
entityId, before the alarm branch is reached), so the resolver creates an
entity record for it, contradicting the claim that an alarm-typed body
never creates an Entity. -/
theorem alarm_with_entityId_creates_entity :
    List.lookup "99" pairingConfigBefore.detectedEntities = none ∧
    (List.lookup "99"
        (handleRustPlusPairing pairingConfigBefore alarmInfoWithEntityId
          "2026-01-02T00:00:00Z" none).1.detectedEntities).isSome = true := by
  decide

/-- C8 amended: a push notification body of type alarm without a truthy
entityId field leaves the configuration untouched and issues no action. -/
theorem alarm_without_entityId_no_mutation (cfg : Config) (info : PairingInfo)
    (nowIso : String) (client : Option Bool)
    (ht : info.ptype = JSValue.vStr "alarm")
    (he : info.entityId.truthy = false) :
    handleRustPlusPairing cfg info nowIso client = (cfg, []) := by
  unfold handleRustPlusPairing
  rw [if_neg (by rw [ht]; decide),
      if_neg (by rw [ht, he]; decide),
      if_pos ht]

/-- C3: a call to connectToRustPlus while an attempt is already in flight
or a session is already connected is a no-op: the connection state is
unchanged, no new client (socket) is constructed, and the call returns
null or the existing connected client. -/
theorem connect_single_flight (cfg : Config) (st : ClientState)
    (h : st.isConnecting = true ∨ st.rustPlusClient = some true) :
    (connectToRustPlus cfg st).2 = st ∧
    (connectToRustPlus cfg st).2.clientsCreated = st.clientsCreated ∧
    ((connectToRustPlus cfg st).1 = ConnectOutcome.nullMissingCreds ∨
     (connectToRustPlus cfg st).1 = ConnectOutcome.nullAlreadyConnecting ∨
     (connectToRustPlus cfg st).1 = ConnectOutcome.existingConnected) := by
  unfold connectToRustPlus
  rcases h with h | h
  · by_cases hc : hasRustPlusCredentials cfg = false
    · simp [hc]
    · simp [hc, h]
  · by_cases hc : hasRustPlusCredentials cfg = false
    · simp [hc]
    · cases hconn : st.isConnecting
      · simp [hc, hconn, h]
      · simp [hc, hconn]

/-- Connection state with an attempt already in flight, for the witness. -/
def connectingState : ClientState :=
  { isConnecting := true, rustPlusClient := none, clientsCreated := 1 }

theorem connect_single_flight_witness :
    (connectToRustPlus pairingConfigBefore connectingState).2 = connectingState ∧
    (connectToRustPlus pairingConfigBefore connectingState).2.clientsCreated
      = connectingState.clientsCreated ∧
    ((connectToRustPlus pairingConfigBefore connectingState).1
        = ConnectOutcome.nullMissingCreds ∨
     (connectToRustPlus pairingConfigBefore connectingState).1
        = ConnectOutcome.nullAlreadyConnecting ∨
     (connectToRustPlus pairingConfigBefore connectingState).1
        = ConnectOutcome.existingConnected) :=
  connect_single_flight pairingConfigBefore connectingState (Or.inl rfl)

/-- C6: the error handler schedules exactly one reconnect timer, and its
delay is at least 30 seconds for a transport-unreachable error code
(ETIMEDOUT or ECONNREFUSED) and at least 10 seconds for any other code. -/
theorem error_backoff_schedule (errCode : String) (st : ClientState) :
    ∃ d : Nat, (onRustPlusError errCode st).2 = [d] ∧
      (if errCode = "ETIMEDOUT" ∨ errCode = "ECONNREFUSED"
       then 30 * 1000 ≤ d else 10 * 1000 ≤ d) := by
  unfold onRustPlusError errorReconnectDelays
  by_cases h : errCode = "ETIMEDOUT" ∨ errCode = "ECONNREFUSED"
  · exact ⟨30000, by simp [h], by simp [h]⟩
  · exact ⟨10000, by simp [h], by simp [h]⟩

theorem supervisor_delays_single (e : SupervisorEvent) :
    (scheduledReconnectDelays e).length = 1 := by
  cases e with
  | disconnected => rfl
  | errorEvent c =>
      simp only [scheduledReconnectDelays, errorReconnectDelays]
      split <;> rfl
  | connectFailed => rfl

/-- C7: every disconnect, error or failed connection attempt schedules
exactly one reconnect timer; the timer body invokes a reconnect exactly
when the credential triple is present; hence over any sequence of failure
events, every event yields a reconnect while credentials are present (no
attempt cap) and none does once they are cleared. -/
theorem reconnect_until_credentials_cleared (cfg : Config)
    (events : List SupervisorEvent) :
    (∀ e : SupervisorEvent, (scheduledReconnectDelays e).length = 1) ∧
    (reconnectTimerFires cfg = true ↔ hasRustPlusCredentials cfg = true) ∧
    (hasRustPlusCredentials cfg = true →
      reconnectAttempts cfg events = events.length) ∧
    (hasRustPlusCredentials cfg = false → reconnectAttempts cfg events = 0) := by
  have hgen : ∀ (l : List SupervisorEvent) (a : Nat),
      List.foldl
        (fun n e =>
          n + (if reconnectTimerFires cfg then (scheduledReconnectDelays e).length else 0))
        a l
      = a + (if reconnectTimerFires cfg then l.length else 0) := by
    intro l
    induction l with
    | nil => intro a; simp
    | cons e t ih =>
        intro a
        simp only [List.foldl_cons, List.length_cons]
        rw [ih]
        cases hf : reconnectTimerFires cfg
        · simp [supervisor_delays_single e]
        · simp [supervisor_delays_single e]
          omega
  refine ⟨supervisor_delays_single, Iff.rfl, ?_, ?_⟩
  · intro h
    unfold reconnectAttempts
    rw [hgen]
    have hf : reconnectTimerFires cfg = true := h
    simp [hf]
  · intro h
    unfold reconnectAttempts
    rw [hgen]
    have hf : reconnectTimerFires cfg = false := h
    simp [hf]

/-- A sample failure-event sequence for the witness. -/
def supervisorEventsSample : List SupervisorEvent :=
  [SupervisorEvent.disconnected, SupervisorEvent.errorEvent "ETIMEDOUT",
   SupervisorEvent.errorEvent "EPROTO", SupervisorEvent.connectFailed]

theorem reconnect_until_credentials_cleared_witness :
    reconnectAttempts pairingConfigBefore supervisorEventsSample
        = supervisorEventsSample.length ∧
    (scheduledReconnectDelays SupervisorEvent.disconnected).length = 1 :=
  ⟨(reconnect_until_credentials_cleared pairingConfigBefore
      supervisorEventsSample).2.2.1 (by decide),
   (reconnect_until_credentials_cleared pairingConfigBefore
      supervisorEventsSample).1 SupervisorEvent.disconnected⟩

/-- C9: when the persisted store is unreadable or holds unparsable JSON,
loadConfig returns the in-memory default document instead of raising. -/
theorem loadConfig_falls_back_to_default (store : StoreState)
    (h : store = StoreState.unreadable ∨ store = StoreState.invalidJSON) :
    loadConfig store = defaultConfigDoc := by
  rcases h with h | h <;> subst h <;> rfl

theorem loadConfig_falls_back_to_default_witness :
    loadConfig StoreState.unreadable = defaultConfigDoc :=
  loadConfig_falls_back_to_default StoreState.unreadable (Or.inl rfl)

/-- C10: the configuration produced by the POST /api/config handler agrees
with the request body on every key the body carries and with the prior
loaded configuration on every other key: a partial update never erases
unrelated fields. -/
theorem postApiConfig_partial_update (store : StoreState) (reqBody : JSObject)
    (k : String) :
    (List.lookup k reqBody = none →
      List.lookup k (postApiConfig store reqBody)
        = List.lookup k (loadConfig store)) ∧
    (∀ v : JsonVal, List.lookup k reqBody = some v →
      List.lookup k (postApiConfig store reqBody) = some v) := by
  constructor
  · intro h
    exact lookup_spreadMerge_absent (loadConfig store) reqBody k h
  · intro v h
    exact lookup_spreadMerge_present (loadConfig store) reqBody k v h

/-- A stored document and a partial update request for the witness. -/
def storeSample : StoreState :=
  StoreState.validDoc [("rustPlusServerIP", JsonVal.scalar (.vStr "5.5.5.5"))]

def reqBodySample : JSObject :=
  [("gamingPCIP", JsonVal.scalar (.vStr "10.0.0.5"))]

theorem postApiConfig_partial_update_witness :
    List.lookup "rustPlusServerIP" (postApiConfig storeSample reqBodySample)
      = List.lookup "rustPlusServerIP" (loadConfig storeSample) ∧
    List.lookup "gamingPCIP" (postApiConfig storeSample reqBodySample)
      = some (JsonVal.scalar (.vStr "10.0.0.5")) :=
  ⟨(postApiConfig_partial_update storeSample reqBodySample "rustPlusServerIP").1 rfl,
   (postApiConfig_partial_update storeSample reqBodySample "gamingPCIP").2 _ rfl⟩

/-- An already paired entity record and a config holding it, for the
redelivery witness. -/
def pairedDoorSensor : Entity :=
  { id := .vStr "100"
    name := .vStr "Door Sensor"
    etype := .vStr "1"
    lastValue := .vBool false
    lastChanged := "2026-01-01T00:00:00Z"
    paired := true }

def pairedConfigSample : Config :=
  { pairingConfigBefore with detectedEntities := [("100", pairedDoorSensor)] }

theorem displayName_never_clobbered_witness :
    List.lookup "100"
        (handleRustPlusPairing pairedConfigSample pairingInfoNewServer
          "2026-01-03T00:00:00Z" (some true)).1.detectedEntities
      = some { pairedDoorSensor with lastChanged := "2026-01-03T00:00:00Z" } ∧
    (∃ e2 : Entity,
      List.lookup (toString (100 : Nat))
          (processSmartAlarmEntityChanged pairedConfigSample 100 (JSValue.vBool true)
            "2026-01-04T00:00:00Z").1.detectedEntities
        = some e2 ∧ e2.name = pairedDoorSensor.name) :=
  ⟨displayName_never_clobbered.1 pairedConfigSample pairingInfoNewServer
      "2026-01-03T00:00:00Z" (some true) pairedDoorSensor rfl (by decide) rfl,
   displayName_never_clobbered.2 pairedConfigSample 100 (JSValue.vBool true)
      "2026-01-04T00:00:00Z" pairedDoorSensor (by decide)⟩

/-- A decoded body of type alarm with no entityId field. -/
def alarmInfoPlain : PairingInfo :=
  { ptype := .vStr "alarm"
    ip := .vUndef
    port := .vUndef
    playerId := .vUndef
    playerToken := .vUndef
    pname := .vUndef
    entityId := .vUndef
    entityName := .vUndef
    entityType := .vUndef
    : PairingInfo }

theorem alarm_without_entityId_no_mutation_witness :
    handleRustPlusPairing pairingConfigBefore alarmInfoPlain
        "2026-01-02T00:00:00Z" (some true)
      = (pairingConfigBefore, []) :=
  alarm_without_entityId_no_mutation pairingConfigBefore alarmInfoPlain
    "2026-01-02T00:00:00Z" (some true) rfl rfl
